import Mathlib

/-!
Verification of the core of the Vanguard_Viz data-proxy server (`src/server.js`):
the Gateway (cache + rate limiter), the Transformer Registry, the
Field-Defaulting Pass, the Filter Engine and the sample vendor-inventory
generator.  JavaScript runtime values are shallowly embedded as the inductive
type `JValue`; each JS function of interest is translated definition-by-
definition from the source.
-/

namespace VanguardViz

/-- A JavaScript runtime value as it can appear in parsed JSON plus the
`undefined`/`NaN` values produced by property access and numeric coercion.
Numbers are modelled as integers (the code under verification only compares
them for strict equality and truthiness). -/
inductive JValue where
  | vundefined
  | vnull
  | vbool (b : Bool)
  | vnum (n : Int)
  | vnan
  | vstr (s : String)
  | varr (elems : List JValue)
  | vobj (fields : List (String × JValue))

/-- JS truthiness: `undefined`, `null`, `false`, `0`, `NaN` and `""` are falsy;
every other value (including all arrays and objects) is truthy. -/
def truthy : JValue → Bool
  | .vundefined => false
  | .vnull => false
  | .vbool b => b
  | .vnum n => n != 0
  | .vnan => false
  | .vstr s => s != ""
  | .varr _ => true
  | .vobj _ => true

/-- JS `typeof` operator (note `typeof null` is `"object"`). -/
def typeofJ : JValue → String
  | .vundefined => "undefined"
  | .vnull => "object"
  | .vbool _ => "boolean"
  | .vnum _ => "number"
  | .vnan => "number"
  | .vstr _ => "string"
  | .varr _ => "object"
  | .vobj _ => "object"

/-- Property access `v.k` on a value that is not `null`/`undefined`:
returns the field of an object, `undefined` otherwise (the code never reads
array indices or string methods through this helper).  Access on
`null`/`undefined` throws in JS; the throwing cases are tracked separately by
the per-transformer throw predicates. -/
def JValue.get : JValue → String → JValue
  | .vobj fields, k => ((fields.lookup k).getD .vundefined)
  | _, _ => .vundefined

/-- JS `a || b`. -/
def jsOr (a b : JValue) : JValue := if truthy a then a else b

/-- Strict equality `v === n` against a number literal. -/
def strictNumEq (v : JValue) (n : Int) : Bool :=
  match v with
  | .vnum m => m == n
  | _ => false

def isUndefined : JValue → Bool
  | .vundefined => true
  | _ => false

def isNullish : JValue → Bool
  | .vundefined => true
  | .vnull => true
  | _ => false

def isString : JValue → Bool
  | .vstr _ => true
  | _ => false

def isArray : JValue → Bool
  | .varr _ => true
  | _ => false

/-- String conversion as performed by template literals and `.toString()`.
Array elements that are `null`/`undefined` render as the empty string, per
`Array.prototype.toString`. -/
def jsToString : JValue → String
  | .vundefined => "undefined"
  | .vnull => "null"
  | .vbool b => if b then "true" else "false"
  | .vnum n => toString n
  | .vnan => "NaN"
  | .vstr s => s
  | .varr es => String.intercalate "," (es.map fun e =>
      match e with
      | .vnull => ""
      | .vundefined => ""
      | .vbool b => if b then "true" else "false"
      | .vnum n => toString n
      | .vnan => "NaN"
      | .vstr s => s
      | .varr _ => ""
      | .vobj _ => "[object Object]")
  | .vobj _ => "[object Object]"

/-- Whitespace skipped by JS string-to-number coercion and `parseInt`. -/
def isWsChar (c : Char) : Bool :=
  c == ' ' || c == '\t' || c == '\n' || c == '\r'

/-- Trim leading and trailing whitespace from a character list. -/
def trimChars (l : List Char) : List Char :=
  ((l.dropWhile isWsChar).reverse.dropWhile isWsChar).reverse

/-- Value of a run of decimal digits. -/
def digitsVal (l : List Char) : Nat :=
  l.foldl (fun a c => a * 10 + (c.toNat - 48)) 0

/-- Parse an optionally-signed all-digits character run (`Number(...)`
requires the entire trimmed string to be numeric). -/
def intFromChars (l : List Char) : Option Int :=
  let neg : Bool := match l with | '-' :: _ => true | _ => false
  let rest := match l with | '-' :: r => r | '+' :: r => r | r => r
  if rest.isEmpty then none
  else if rest.all Char.isDigit then
    if neg then some (-(digitsVal rest : Int)) else some ((digitsVal rest : Int))
  else none

/-- The `Number(v)` coercion, returning `vnum` or `vnan`.  String parsing is
modelled for integer-valued strings only (the server never relies on
fractional parses: the coerced values are used for truthiness, strict
comparison with small integer codes, or carried through verbatim). -/
def jsNumberV : JValue → JValue
  | .vundefined => .vnan
  | .vnull => .vnum 0
  | .vbool b => .vnum (if b then 1 else 0)
  | .vnum n => .vnum n
  | .vnan => .vnan
  | .vstr s =>
      let t := trimChars s.data
      if t.isEmpty then .vnum 0
      else match intFromChars t with
        | some n => .vnum n
        | none => .vnan
  | .varr es => match es with
      | [] => .vnum 0
      | _ => .vnan
  | .vobj _ => .vnan

/-- Optional chaining `v?.toString()`: `undefined` when the receiver is
`null`/`undefined`, otherwise the string conversion. -/
def optChainToString (v : JValue) : JValue :=
  match v with
  | .vnull => .vundefined
  | .vundefined => .vundefined
  | x => .vstr (jsToString x)

/-- The `JSON.stringify` serialisation restricted to the shapes reachable in the server
(values parsed from JSON, hence acyclic; `undefined` at top level yields the
JS value `undefined`, inside arrays it serialises as `null`). -/
def jsonStringify : JValue → String
  | .vundefined => "null"
  | .vnull => "null"
  | .vbool b => if b then "true" else "false"
  | .vnum n => toString n
  | .vnan => "null"
  | .vstr s => "\"" ++ s ++ "\""
  | .varr es => "[" ++ String.intercalate "," (es.map fun e =>
      match e with
      | .vnull => "null"
      | .vundefined => "null"
      | .vbool b => if b then "true" else "false"
      | .vnum n => toString n
      | .vnan => "null"
      | .vstr s => "\"" ++ s ++ "\""
      | .varr _ => "[...]"
      | .vobj _ => "\x7b...\x7d") ++ "]"
  | .vobj _ => "\x7b...\x7d"

/-- Top-level `JSON.stringify(v)`: the JS value it returns
(`undefined` for an `undefined` argument, a string otherwise). -/
def jsonStringifyTop (v : JValue) : JValue :=
  match v with
  | .vundefined => .vundefined
  | x => .vstr (jsonStringify x)

/-- JS `parseInt(s)` in base 10: trims whitespace, consumes an optional sign and
a maximal digit run; `NaN` (here `none`) when no digits are found. -/
def parseIntJS (s : String) : Option Int :=
  let t := trimChars s.data
  let neg : Bool := match t with | '-' :: _ => true | _ => false
  let rest := match t with | '-' :: r => r | '+' :: r => r | r => r
  let ds := rest.takeWhile Char.isDigit
  if ds.isEmpty then none
  else if neg then some (-(digitsVal ds : Int)) else some ((digitsVal ds : Int))

/-- Does `sub` occur as a leading run of `l`? -/
def charsHasInit : List Char → List Char → Bool
  | _, [] => true
  | [], _ :: _ => false
  | c :: cs, d :: ds => c == d && charsHasInit cs ds

/-- JS `haystack.includes(needle)` on character lists. -/
def charsHasInfix (l sub : List Char) : Bool :=
  match l with
  | [] => charsHasInit [] sub
  | c :: t => charsHasInit (c :: t) sub || charsHasInfix t sub

/-- JS `.toLowerCase()`. -/
def lowerChars (l : List Char) : List Char := l.map Char.toLower

/-! ## Transformer Registry (`definitionTransformers`, src/server.js lines 101-204) -/

/-- A flat output record: field names mapped to JS values, in insertion
order (the order of the object literal in the source). -/
abbrev FlatRecord := List (String × JValue)

/-- Helper `getClassName` (src/server.js lines 308-315): a `switch` on the argument
with strict-equality cases `0`, `1`, `2`. -/
def getClassName (classType : JValue) : String :=
  if strictNumEq classType 0 then "Titan"
  else if strictNumEq classType 1 then "Hunter"
  else if strictNumEq classType 2 then "Warlock"
  else "Unknown"

/-- The `DestinyInventoryItemDefinition` transformer (lines 102-124). -/
def transformInventoryItem (item : JValue) (hash : String) : FlatRecord :=
  let displayProps := jsOr (item.get "displayProperties") (.vobj [])
  let inventory := jsOr (item.get "inventory") (.vobj [])
  [ ("hash", .vstr hash),
    ("name", jsOr (displayProps.get "name") (.vstr "Unknown")),
    ("description", jsOr (displayProps.get "description") (.vstr "")),
    ("icon", if truthy (displayProps.get "hasIcon")
      then .vstr ("https://www.bungie.net" ++ jsToString (displayProps.get "icon"))
      else .vstr ""),
    ("type", jsOr (item.get "itemTypeDisplayName") (.vstr "Unknown Type")),
    ("tierType", jsOr (inventory.get "tierTypeName") (.vstr "Unknown")),
    ("rarity", jsNumberV (jsOr (inventory.get "tierType") (.vnum 0))),
    ("classType", .vstr (getClassName (jsNumberV (item.get "classType")))),
    ("damageType", jsNumberV (jsOr (item.get "defaultDamageType") (.vnum 0))),
    ("damageTypeHash", jsOr (optChainToString (item.get "defaultDamageTypeHash")) (.vstr "0")),
    ("equippable", .vbool (truthy (item.get "equippable"))),
    ("isExotic", .vbool (strictNumEq (inventory.get "tierType") 6)),
    ("isLegendary", .vbool (strictNumEq (inventory.get "tierType") 5)),
    ("bucketHash", jsOr (optChainToString (inventory.get "bucketTypeHash")) (.vstr "0")),
    ("referenceId", .vstr hash) ]

/-- Icon field shared by the six transformers that use
`item.displayProperties?.name` style access (lines 126-203). -/
def displayIcon (item : JValue) : JValue :=
  if truthy ((item.get "displayProperties").get "hasIcon")
  then .vstr ("https://www.bungie.net" ++ jsToString ((item.get "displayProperties").get "icon"))
  else .vstr ""

/-- The `DestinyActivityDefinition` transformer (lines 126-140). -/
def transformActivity (item : JValue) (hash : String) : FlatRecord :=
  [ ("hash", .vstr hash),
    ("name", jsOr ((item.get "displayProperties").get "name") (.vstr "Unknown")),
    ("description", jsOr ((item.get "displayProperties").get "description") (.vstr "")),
    ("icon", displayIcon item),
    ("type", if truthy (item.get "activityTypeHash") then .vstr "activityType" else .vstr "activity"),
    ("activityTypeHash", jsOr (optChainToString (item.get "activityTypeHash")) (.vstr "0")),
    ("destinationHash", jsOr (optChainToString (item.get "destinationHash")) (.vstr "0")),
    ("placeHash", jsOr (optChainToString (item.get "placeHash")) (.vstr "0")),
    ("activityModeHash", jsOr (optChainToString (item.get "activityModeHash")) (.vstr "0")),
    ("isPlaylist", .vbool (truthy (item.get "isPlaylist"))),
    ("recommended_light", jsOr (item.get "recommendedLight") (.vnum 0)),
    ("matchmaking", .vbool (truthy (item.get "matchmaking"))),
    ("referenceId", .vstr hash) ]

/-- The `DestinyClassDefinition` transformer (lines 142-151). -/
def transformClass (item : JValue) (hash : String) : FlatRecord :=
  [ ("hash", .vstr hash),
    ("name", jsOr ((item.get "displayProperties").get "name") (.vstr "Unknown")),
    ("description", jsOr ((item.get "displayProperties").get "description") (.vstr "")),
    ("icon", displayIcon item),
    ("classType", .vstr (getClassName (item.get "classType"))),
    ("classTypeValue", jsOr (item.get "classType") (.vnum 0)),
    ("mentorVendorHash", jsOr (optChainToString (item.get "mentorVendorHash")) (.vstr "0")),
    ("referenceId", .vstr hash) ]

/-- The `color` expression of the damage-type transformer (line 159):
`transparentIconPath.split('/').pop().split('.')[0]`, defined for string
receivers (non-string truthy receivers throw and are handled by the
transformer's throw predicate). -/
def colorFromPath (s : String) : String :=
  (((s.splitOn "/").getLastD "").splitOn ".").headD ""

/-- The `DestinyDamageTypeDefinition` transformer (lines 153-162). -/
def transformDamageType (item : JValue) (hash : String) : FlatRecord :=
  [ ("hash", .vstr hash),
    ("name", jsOr ((item.get "displayProperties").get "name") (.vstr "Unknown")),
    ("description", jsOr ((item.get "displayProperties").get "description") (.vstr "")),
    ("icon", displayIcon item),
    ("enumValue", jsOr (item.get "enumValue") (.vnum 0)),
    ("color", if truthy (item.get "transparentIconPath")
      then .vstr (colorFromPath (jsToString (item.get "transparentIconPath")))
      else .vstr "none"),
    ("showIcon", .vbool (truthy (item.get "showIcon"))),
    ("referenceId", .vstr hash) ]

/-- The `DestinyStatDefinition` transformer (lines 164-174). -/
def transformStat (item : JValue) (hash : String) : FlatRecord :=
  [ ("hash", .vstr hash),
    ("name", jsOr ((item.get "displayProperties").get "name") (.vstr "Unknown")),
    ("description", jsOr ((item.get "displayProperties").get "description") (.vstr "")),
    ("icon", displayIcon item),
    ("aggregationType", jsOr (item.get "aggregationType") (.vnum 0)),
    ("hasComputedBlock", .vbool (truthy (item.get "hasComputedBlock"))),
    ("statCategory", jsOr (item.get "statCategory") (.vnum 0)),
    ("interpolate", .vbool (truthy (item.get "interpolate"))),
    ("referenceId", .vstr hash) ]

/-- The `DestinyVendorDefinition` transformer (lines 176-191). -/
def transformVendor (item : JValue) (hash : String) : FlatRecord :=
  [ ("hash", .vstr hash),
    ("name", jsOr ((item.get "displayProperties").get "name") (.vstr "Unknown")),
    ("description", jsOr ((item.get "displayProperties").get "description") (.vstr "")),
    ("icon", displayIcon item),
    ("vendorProgressionType", jsOr (item.get "vendorProgressionType") (.vnum 0)),
    ("buyString", jsOr (item.get "buyString") (.vstr "")),
    ("sellString", jsOr (item.get "sellString") (.vstr "")),
    ("displayItemHash", jsOr (optChainToString (item.get "displayItemHash")) (.vstr "0")),
    ("inhibitBuying", .vbool (truthy (item.get "inhibitBuying"))),
    ("inhibitSelling", .vbool (truthy (item.get "inhibitSelling"))),
    ("factionHash", jsOr (optChainToString (item.get "factionHash")) (.vstr "0")),
    ("resetIntervalMinutes", jsOr (item.get "resetIntervalMinutes") (.vnum 0)),
    ("resetOffsetMinutes", jsOr (item.get "resetOffsetMinutes") (.vnum 0)),
    ("referenceId", .vstr hash) ]

/-- The `DestinyEquipmentSlotDefinition` transformer (lines 193-203). -/
def transformEquipmentSlot (item : JValue) (hash : String) : FlatRecord :=
  [ ("hash", .vstr hash),
    ("name", jsOr ((item.get "displayProperties").get "name") (.vstr "Unknown")),
    ("description", jsOr ((item.get "displayProperties").get "description") (.vstr "")),
    ("icon", displayIcon item),
    ("equipmentCategoryHash", jsOr (optChainToString (item.get "equipmentCategoryHash")) (.vstr "0")),
    ("bucketTypeHash", jsOr (optChainToString (item.get "bucketTypeHash")) (.vstr "0")),
    ("applyCustomArtDyes", .vbool (truthy (item.get "applyCustomArtDyes"))),
    ("artDyeChannels", jsonStringifyTop (jsOr (item.get "artDyeChannels") (.varr []))),
    ("referenceId", .vstr hash) ]

/-- The seven registered entity types (keys of `definitionTransformers`). -/
inductive DefType where
  | inventoryItem
  | activity
  | classKind
  | damageType
  | stat
  | vendor
  | equipmentSlot
deriving DecidableEq

/-- When the transformer body throws a `TypeError`.  Every transformer's first
unguarded property access is on `item` itself, so a `null`/`undefined` item
throws; the damage-type transformer additionally calls `.split` on
`transparentIconPath` whenever that field is truthy, which throws for truthy
non-string values. -/
def transformerThrows : DefType → JValue → Bool
  | .damageType, item =>
      isNullish item ||
        (truthy (item.get "transparentIconPath") && !isString (item.get "transparentIconPath"))
  | _, item => isNullish item

/-- Dispatch table `definitionTransformers[T]` as a pure function. -/
def transformBody : DefType → JValue → String → FlatRecord
  | .inventoryItem => transformInventoryItem
  | .activity => transformActivity
  | .classKind => transformClass
  | .damageType => transformDamageType
  | .stat => transformStat
  | .vendor => transformVendor
  | .equipmentSlot => transformEquipmentSlot

/-- One `transformer(item, hash)` call as issued by the pipeline: `none` when the
transformer throws (the pipeline catches the error and drops the record). -/
def runTransformer (t : DefType) (item : JValue) (hash : String) : Option FlatRecord :=
  if transformerThrows t item then none else some (transformBody t item hash)

/-! ## Field-Defaulting Pass (src/server.js lines 262-285 and 1386-1411) -/

/-- Field names classified string-like by the defaulting pass (line 274). -/
def stringFieldNames : List String :=
  ["hash", "name", "description", "icon", "type", "tierType",
   "classType", "source", "referenceId", "vendor", "date"]

/-- Field names classified numeric by the defaulting pass (line 278). -/
def numberFieldNames : List String :=
  ["rarity", "damageType", "bucket", "kills", "precision", "usage"]

/-- Field names classified boolean by the defaulting pass (line 281). -/
def boolFieldNames : List String :=
  ["equippable", "isExotic", "isLegendary", "isPlaylist", "matchmaking"]

/-- One iteration of the defaulting loop for key `k` holding value `v`:
only `null`/`undefined` values are replaced, and the `typeof` guards are kept
verbatim (note `typeof` of the now-missing value is `"object"` or
`"undefined"`, so classification effectively falls to the name lists and the
`endsWith("Hash")` test). -/
def repairValue (k : String) (v : JValue) : JValue :=
  if isNullish v then
    if typeofJ v == "string" || k.endsWith "Hash" || stringFieldNames.contains k then .vstr ""
    else if typeofJ v == "number" || numberFieldNames.contains k then .vnum 0
    else if typeofJ v == "boolean" || boolFieldNames.contains k then .vbool false
    else v
  else v

/-- The defaulting pass over a whole record
(`Object.entries(transformed).forEach(...)`). -/
def repairRecord (rec : FlatRecord) : FlatRecord :=
  rec.map fun kv => (kv.1, repairValue kv.1 kv.2)

/-- The five carry-along fields appended after the transformer runs
(lines 262-266); none of the seven transformers emits these keys, so the
assignments append new entries in this order. -/
def addStandardFields (rec : FlatRecord) : FlatRecord :=
  rec ++ [("kills", .vnum 0), ("precision", .vnum 0), ("usage", .vnum 0),
          ("vendor", .vstr ""), ("date", .vstr "")]

/-- The per-record core pipeline: transformer, carry-along fields, defaulting
pass; `none` when the transformer threw and the record was dropped. -/
def pipelineRecord (t : DefType) (item : JValue) (hash : String) : Option FlatRecord :=
  (runTransformer t item hash).map fun rec => repairRecord (addStandardFields rec)

/-- A record has no `null`/`undefined` field values. -/
def recordNonNull (rec : FlatRecord) : Bool :=
  rec.all fun kv => !isNullish kv.2

/-! ## C1 / C2 supporting lemmas -/

theorem isNullish_jsOr (a b : JValue) (hb : isNullish b = false) :
    isNullish (jsOr a b) = false := by
  unfold jsOr
  split
  · next h => cases a <;> simp_all [truthy, isNullish]
  · exact hb

theorem isNullish_jsNumberV (v : JValue) : isNullish (jsNumberV v) = false := by
  cases v
  case vstr s =>
    simp only [jsNumberV]
    split
    · rfl
    · split <;> rfl
  case varr es => cases es <;> rfl
  all_goals rfl

theorem jsOr_ne_undefined (a : JValue) (es : List JValue) :
    jsOr a (.varr es) ≠ .vundefined := by
  unfold jsOr
  split
  · next h => cases a <;> simp_all [truthy]
  · simp

theorem isNullish_jsonStringifyTop (v : JValue) (hv : v ≠ .vundefined) :
    isNullish (jsonStringifyTop v) = false := by
  cases v <;> simp [jsonStringifyTop, isNullish] at hv ⊢

/-- Every field emitted by any of the seven transformers is non-null: each
field expression is either a direct constructor application or a `||` with a
non-null fallback. -/
theorem transformBody_nonNull (t : DefType) (item : JValue) (hash : String) :
    recordNonNull (transformBody t item hash) = true := by
  cases t <;>
    simp only [transformBody, transformInventoryItem, transformActivity,
      transformClass, transformDamageType, transformStat, transformVendor,
      transformEquipmentSlot, displayIcon, recordNonNull, List.all_cons,
      List.all_nil, Bool.and_true, Bool.and_eq_true, Bool.not_eq_true'] <;>
    repeat' apply And.intro
  all_goals
    first
    | rfl
    | (apply isNullish_jsOr; rfl)
    | apply isNullish_jsNumberV
    | (split <;> rfl)
    | (apply isNullish_jsonStringifyTop; apply jsOr_ne_undefined)

theorem repairValue_of_nonNull (k : String) (v : JValue) (h : isNullish v = false) :
    repairValue k v = v := by
  unfold repairValue
  simp [h]

theorem recordNonNull_addStandardFields (rec : FlatRecord)
    (h : recordNonNull rec = true) :
    recordNonNull (addStandardFields rec) = true := by
  unfold recordNonNull addStandardFields at *
  simp only [List.all_append, Bool.and_eq_true]
  exact ⟨h, by decide⟩

theorem recordNonNull_repairRecord (rec : FlatRecord)
    (h : recordNonNull rec = true) :
    recordNonNull (repairRecord rec) = true := by
  unfold recordNonNull repairRecord at *
  rw [List.all_map]
  rw [List.all_eq_true] at h ⊢
  intro kv hkv
  have h2 := h kv hkv
  simp only [Function.comp] at *
  rw [repairValue_of_nonNull]
  · exact h2
  · simpa using h2

/-- C1.  For every record produced by the core pipeline (transformer, then the
carry-along fields, then the Field-Defaulting Pass), no field value is `null`
or `undefined`.  The seven transformers already emit only non-null field
values (every field is a constructor application or a `||` whose fallback is
non-null), the appended carry-along fields are non-null constants, and the
defaulting pass never introduces a null value, so no field escapes with a
null value. -/
theorem pipeline_fields_nonNull (t : DefType) (item : JValue) (hash : String)
    (rec : FlatRecord) (h : pipelineRecord t item hash = some rec) :
    recordNonNull rec = true := by
  unfold pipelineRecord runTransformer at h
  split at h
  · simp at h
  · have h2 : repairRecord (addStandardFields (transformBody t item hash)) = rec := by
      simpa using h
    subst h2
    exact recordNonNull_repairRecord _
      (recordNonNull_addStandardFields _ (transformBody_nonNull t item hash))

/-- Witness for C1: the pipeline on a concrete raw item produces a record all
of whose fields are non-null. -/
theorem pipeline_fields_nonNull_witness :
    recordNonNull (repairRecord (addStandardFields
      (transformInventoryItem (.vobj [("classType", .vnum 1)]) "42"))) = true :=
  pipeline_fields_nonNull .inventoryItem (.vobj [("classType", .vnum 1)]) "42" _ rfl

/-- C2.  For every registered entity type, raw record and hash, the
transformer output (when the transformer does not throw) carries
`hash = referenceId = String(h)`: both fields hold the hash coerced to
string. -/
theorem transform_hash_referenceId (t : DefType) (item : JValue) (hash : String)
    (rec : FlatRecord) (h : runTransformer t item hash = some rec) :
    rec.lookup "hash" = some (.vstr hash) ∧
      rec.lookup "referenceId" = some (.vstr hash) := by
  unfold runTransformer at h
  split at h
  · simp at h
  · simp only [Option.some.injEq] at h
    subst h
    cases t <;> exact ⟨rfl, rfl⟩

/-- Witness for C2: a concrete activity record carries the hash string in
both identity fields. -/
theorem transform_hash_referenceId_witness :
    (transformActivity (.vobj []) "3973202132").lookup "hash"
        = some (.vstr "3973202132") ∧
      (transformActivity (.vobj []) "3973202132").lookup "referenceId"
        = some (.vstr "3973202132") :=
  transform_hash_referenceId .activity (.vobj []) "3973202132" _ rfl

/-! ## Gateway: `callBungieAPI` (src/server.js lines 33-98)

The gateway is modelled operationally: one call is a function of the current
state (cache plus the module-level `lastRequestTime`), the arrival wall-clock
time (`Date.now()` at the pacing check) and the network oracle (the upstream
response, `none` for a network failure).  The cooperative sleep is modelled
exactly at its guaranteed bound: when pacing applies, the network call is
stamped at `lastRequestTime + MIN_REQUEST_INTERVAL`. -/

/-- Constant `MIN_REQUEST_INTERVAL` (line 35). -/
def MIN_REQUEST_INTERVAL : Nat := 100

/-- Gateway state: the `node-cache` contents (key, body, expiry timestamp)
and the module-level `lastRequestTime` (initially 0). -/
structure GwState where
  cache : List (String × JValue × Nat)
  lastRequestTime : Nat

/-- Lookup `apiCache.get(key)` at wall-clock `now`: an entry is returned only while
unexpired (`node-cache` treats an entry with expiry `< now` as gone). -/
def cacheGet (cache : List (String × JValue × Nat)) (key : String) (now : Nat) :
    Option JValue :=
  match cache.find? (fun e => e.1 == key) with
  | some (_, body, exp) => if now ≤ exp then some body else none
  | none => none

/-- Store `apiCache.set(key, body)`: replaces any entry under the same key; the new
entry expires `ttl` after it is stored. -/
def cacheSet (cache : List (String × JValue × Nat)) (key : String)
    (body : JValue) (exp : Nat) : List (String × JValue × Nat) :=
  (key, body, exp) :: cache.filter (fun e => e.1 != key)

/-- Wall-clock time at which the network call is issued: the pacing check
(lines 49-58) sleeps until `lastRequestTime + MIN_REQUEST_INTERVAL` when less
than the minimum interval has elapsed. -/
def paceTime (lastRequestTime arrival : Nat) : Nat :=
  if arrival < lastRequestTime + MIN_REQUEST_INTERVAL
  then lastRequestTime + MIN_REQUEST_INTERVAL
  else arrival

/-- The application-level failure check (line 81) together with the implicit
`TypeError` on `response.data.ErrorCode` when the body is `null`/`undefined`:
for platform (non-CDN) requests the call throws, and nothing is cached, when
`ErrorCode` is truthy and not strictly equal to the success sentinel `1`. -/
def responseFails (isFullUrl : Bool) (body : JValue) : Bool :=
  !isFullUrl &&
    (isNullish body ||
      (truthy (body.get "ErrorCode") && !strictNumEq (body.get "ErrorCode") 1))

/-- Outcome of one gateway call: the returned or thrown result, the state
after the call, whether a network request was issued, and if so at what
wall-clock time. -/
structure GwOutcome where
  result : Except Unit JValue
  state : GwState
  networkCalled : Bool
  netTime : Option Nat

/-- The miss path of `callBungieAPI` (lines 48-97): a network request is
issued at the paced time `t`, which is recorded in `lastRequestTime`; a
network failure or an application-level error body throws without touching
the cache; a successful body is stored under the key before being returned. -/
def missOutcome (st : GwState) (key : String) (isFullUrl : Bool) (t : Nat)
    (net : Option JValue) (ttl : Nat) : GwOutcome :=
  match net with
  | none =>
      { result := .error (), state := ⟨st.cache, t⟩,
        networkCalled := true, netTime := some t }
  | some body =>
      if responseFails isFullUrl body then
        { result := .error (), state := ⟨st.cache, t⟩,
          networkCalled := true, netTime := some t }
      else
        { result := .ok body, state := ⟨cacheSet st.cache key body (t + ttl), t⟩,
          networkCalled := true, netTime := some t }

/-- One `callBungieAPI(endpoint, params, isFullUrl)` call.  `key` is the cache
key `endpoint + ":" + JSON.stringify(params)`; `net` is the upstream body
(`none` for a network error/timeout); `ttl` is the configured cache TTL.
The cache-hit test is `if (cachedResult)`, i.e. truthiness of the stored
body, so a stored falsy body falls through to the miss path. -/
def callBungieAPI (st : GwState) (key : String) (isFullUrl : Bool)
    (arrival : Nat) (net : Option JValue) (ttl : Nat) : GwOutcome :=
  let hit := cacheGet st.cache key arrival
  if truthy (hit.getD .vundefined) then
    { result := .ok (hit.getD .vundefined), state := st,
      networkCalled := false, netTime := none }
  else
    missOutcome st key isFullUrl (paceTime st.lastRequestTime arrival) net ttl

/-! ## Gateway lemmas and claims C3, C4, C5, C10 -/

theorem cacheGet_cacheSet_same (c : List (String × JValue × Nat)) (k : String)
    (b : JValue) (e now : Nat) :
    cacheGet (cacheSet c k b e) k now = if now ≤ e then some b else none := by
  simp [cacheGet, cacheSet, List.find?]

theorem cacheGet_mono (c : List (String × JValue × Nat)) (k : String)
    (n1 n2 : Nat) (h : n1 ≤ n2) (b : JValue) :
    cacheGet c k n2 = some b → cacheGet c k n1 = some b := by
  unfold cacheGet
  intro hg
  split at hg
  · split at hg
    · next hle =>
      rw [if_pos (le_trans h hle)]
      exact hg
    · exact absurd hg (by simp)
  · exact absurd hg (by simp)

theorem truthy_getD_some (x : Option JValue)
    (h : truthy (x.getD .vundefined) = true) :
    ∃ b, x = some b ∧ truthy b = true := by
  cases x with
  | none => simp [truthy] at h
  | some b => exact ⟨b, rfl, h⟩

theorem paceTime_ge (last arrival : Nat) :
    last + MIN_REQUEST_INTERVAL ≤ paceTime last arrival := by
  unfold paceTime
  split
  · exact le_refl _
  · next h => exact le_of_not_lt h

/-- Every miss-path outcome issues a network request stamped at `t` and
records `t` in `lastRequestTime`. -/
theorem missOutcome_basic (st : GwState) (key : String) (isFu : Bool)
    (t : Nat) (net : Option JValue) (ttl : Nat) :
    (missOutcome st key isFu t net ttl).networkCalled = true ∧
      (missOutcome st key isFu t net ttl).netTime = some t ∧
      (missOutcome st key isFu t net ttl).state.lastRequestTime = t := by
  cases net with
  | none => exact ⟨rfl, rfl, rfl⟩
  | some body =>
    by_cases hf : responseFails isFu body = true
    · simp [missOutcome, hf]
    · simp [missOutcome, hf]

/-- On a cache miss, the call issues a network request stamped at the paced
time and records that time in `lastRequestTime`. -/
theorem callBungieAPI_miss (st : GwState) (key : String) (isFu : Bool)
    (arrival : Nat) (net : Option JValue) (ttl : Nat)
    (hmiss : truthy ((cacheGet st.cache key arrival).getD .vundefined) = false) :
    (callBungieAPI st key isFu arrival net ttl).networkCalled = true ∧
      (callBungieAPI st key isFu arrival net ttl).netTime
          = some (paceTime st.lastRequestTime arrival) ∧
      (callBungieAPI st key isFu arrival net ttl).state.lastRequestTime
          = paceTime st.lastRequestTime arrival := by
  unfold callBungieAPI
  rw [if_neg (by simp [hmiss])]
  exact missOutcome_basic st key isFu (paceTime st.lastRequestTime arrival) net ttl

/-- Whenever a network call is stamped, `lastRequestTime` is set to its time
and that time is the paced time. -/
theorem netTime_lastRequestTime (st : GwState) (key : String) (isFu : Bool)
    (arrival : Nat) (net : Option JValue) (ttl : Nat) (t : Nat)
    (h : (callBungieAPI st key isFu arrival net ttl).netTime = some t) :
    (callBungieAPI st key isFu arrival net ttl).state.lastRequestTime = t ∧
      t = paceTime st.lastRequestTime arrival := by
  by_cases hm : truthy ((cacheGet st.cache key arrival).getD .vundefined) = true
  · unfold callBungieAPI at h
    rw [if_pos (by simp [hm])] at h
    exact absurd h (by simp)
  · have hh := callBungieAPI_miss st key isFu arrival net ttl (by simpa using hm)
    rw [hh.2.1] at h
    have ht : t = paceTime st.lastRequestTime arrival := by
      exact (Option.some.injEq _ _ ▸ h).symm
    exact ⟨ht ▸ hh.2.2, ht⟩

/-- Counterexample to C3 as stated: starting from an empty cache, a first call
stores the upstream body `""`; a second identical call arrives while that
entry is unexpired, yet a second network request is issued, because the
cache-hit test is truthiness-based and the stored body is falsy. -/
theorem gateway_idempotence_counterexample :
    (callBungieAPI ⟨[], 0⟩ "/Destiny2/Manifest/:{}" true 1000
        (some (.vstr "")) 3600).networkCalled = true ∧
      cacheGet (callBungieAPI ⟨[], 0⟩ "/Destiny2/Manifest/:{}" true 1000
        (some (.vstr "")) 3600).state.cache "/Destiny2/Manifest/:{}" 1500
        = some (.vstr "") ∧
      (callBungieAPI (callBungieAPI ⟨[], 0⟩ "/Destiny2/Manifest/:{}" true 1000
          (some (.vstr "")) 3600).state "/Destiny2/Manifest/:{}" true 1500
        (some (.vstr "")) 3600).networkCalled = true :=
  ⟨rfl, rfl, rfl⟩

/-- C3 (amended).  If the first call misses the cache, succeeds, and stores a
truthy body, then a second identical call arriving while that entry is
unexpired issues no network call, consumes no pacing, leaves the state
unchanged, and returns exactly the stored body. -/
theorem gateway_cache_idempotent (st0 : GwState) (key : String) (isFu : Bool)
    (arr1 : Nat) (body : JValue) (ttl : Nat) (arr2 : Nat) (net2 : Option JValue)
    (hmiss : truthy ((cacheGet st0.cache key arr1).getD .vundefined) = false)
    (hok : responseFails isFu body = false)
    (htruthy : truthy body = true)
    (hfresh : arr2 ≤ paceTime st0.lastRequestTime arr1 + ttl) :
    (callBungieAPI st0 key isFu arr1 (some body) ttl).result = .ok body ∧
      (callBungieAPI st0 key isFu arr1 (some body) ttl).networkCalled = true ∧
      (callBungieAPI (callBungieAPI st0 key isFu arr1 (some body) ttl).state
          key isFu arr2 net2 ttl).result = .ok body ∧
      (callBungieAPI (callBungieAPI st0 key isFu arr1 (some body) ttl).state
          key isFu arr2 net2 ttl).networkCalled = false ∧
      (callBungieAPI (callBungieAPI st0 key isFu arr1 (some body) ttl).state
          key isFu arr2 net2 ttl).state
        = (callBungieAPI st0 key isFu arr1 (some body) ttl).state := by
  have e1 : callBungieAPI st0 key isFu arr1 (some body) ttl =
      { result := .ok body,
        state := ⟨cacheSet st0.cache key body (paceTime st0.lastRequestTime arr1 + ttl),
                  paceTime st0.lastRequestTime arr1⟩,
        networkCalled := true,
        netTime := some (paceTime st0.lastRequestTime arr1) } := by
    unfold callBungieAPI
    rw [if_neg (by simp [hmiss])]
    simp only [missOutcome, if_neg (by simp [hok] :
      ¬responseFails isFu body = true)]
  rw [e1]
  have e2 : cacheGet (cacheSet st0.cache key body
      (paceTime st0.lastRequestTime arr1 + ttl)) key arr2 = some body := by
    rw [cacheGet_cacheSet_same, if_pos hfresh]
  refine ⟨rfl, rfl, ?_, ?_, ?_⟩ <;>
    · unfold callBungieAPI
      rw [if_pos (by simp [e2, htruthy])]
      all_goals simp [e2]

/-- Witness for C3's amended theorem at concrete inputs. -/
theorem gateway_cache_idempotent_witness :
    (callBungieAPI ⟨[], 0⟩ "/Destiny2/Manifest/:{}" false 1000
        (some (.vobj [("ErrorCode", .vnum 1)])) 3600).result
        = .ok (.vobj [("ErrorCode", .vnum 1)]) ∧
      (callBungieAPI ⟨[], 0⟩ "/Destiny2/Manifest/:{}" false 1000
        (some (.vobj [("ErrorCode", .vnum 1)])) 3600).networkCalled = true ∧
      (callBungieAPI (callBungieAPI ⟨[], 0⟩ "/Destiny2/Manifest/:{}" false 1000
          (some (.vobj [("ErrorCode", .vnum 1)])) 3600).state
        "/Destiny2/Manifest/:{}" false 1500 none 3600).result
        = .ok (.vobj [("ErrorCode", .vnum 1)]) ∧
      (callBungieAPI (callBungieAPI ⟨[], 0⟩ "/Destiny2/Manifest/:{}" false 1000
          (some (.vobj [("ErrorCode", .vnum 1)])) 3600).state
        "/Destiny2/Manifest/:{}" false 1500 none 3600).networkCalled = false ∧
      (callBungieAPI (callBungieAPI ⟨[], 0⟩ "/Destiny2/Manifest/:{}" false 1000
          (some (.vobj [("ErrorCode", .vnum 1)])) 3600).state
        "/Destiny2/Manifest/:{}" false 1500 none 3600).state
        = (callBungieAPI ⟨[], 0⟩ "/Destiny2/Manifest/:{}" false 1000
          (some (.vobj [("ErrorCode", .vnum 1)])) 3600).state :=
  gateway_cache_idempotent ⟨[], 0⟩ "/Destiny2/Manifest/:{}" false 1000
    (.vobj [("ErrorCode", .vnum 1)]) 3600 1500 none rfl rfl rfl (by decide)

/-- Counterexample to C4 as stated: the error-convention inspection is
guarded by `!isFullUrl` (line 81), so a CDN fetch (`isFullUrl = true`) whose
body carries `ErrorCode = 99` does not fail: the erroneous body is stored in
the cache and returned as success, and a subsequent identical call within
the TTL window issues no new network request and serves the stored error
body. -/
theorem gateway_error_inspection_counterexample :
    (callBungieAPI ⟨[], 0⟩ "https://www.bungie.net/defs.json:{}" true 1000
        (some (.vobj [("ErrorCode", .vnum 99)])) 3600).result
        = .ok (.vobj [("ErrorCode", .vnum 99)]) ∧
      cacheGet (callBungieAPI ⟨[], 0⟩ "https://www.bungie.net/defs.json:{}" true
          1000 (some (.vobj [("ErrorCode", .vnum 99)])) 3600).state.cache
        "https://www.bungie.net/defs.json:{}" 1500
        = some (.vobj [("ErrorCode", .vnum 99)]) ∧
      (callBungieAPI (callBungieAPI ⟨[], 0⟩ "https://www.bungie.net/defs.json:{}"
          true 1000 (some (.vobj [("ErrorCode", .vnum 99)])) 3600).state
        "https://www.bungie.net/defs.json:{}" true 1500 none 3600).networkCalled
        = false ∧
      (callBungieAPI (callBungieAPI ⟨[], 0⟩ "https://www.bungie.net/defs.json:{}"
          true 1000 (some (.vobj [("ErrorCode", .vnum 99)])) 3600).state
        "https://www.bungie.net/defs.json:{}" true 1500 none 3600).result
        = .ok (.vobj [("ErrorCode", .vnum 99)]) :=
  ⟨rfl, rfl, rfl, rfl⟩

/-- C4 (amended).  For platform (non-CDN, `isFullUrl = false`) fetches: when
the upstream body carries the application-level error convention
(`ErrorCode` present/truthy and not the success sentinel `1`) and the call
reached the network, the call fails, the body is not stored (cache
unchanged), and any later identical call issues a new network request.  CDN
fetches skip the inspection (see the counterexample above). -/
theorem gateway_upstream_error_not_cached (st : GwState) (key : String)
    (arr : Nat) (body : JValue) (ttl : Nat)
    (herr : truthy (body.get "ErrorCode") = true)
    (hne1 : strictNumEq (body.get "ErrorCode") 1 = false)
    (hnet : (callBungieAPI st key false arr (some body) ttl).networkCalled = true) :
    (callBungieAPI st key false arr (some body) ttl).result = .error () ∧
      (callBungieAPI st key false arr (some body) ttl).state.cache = st.cache ∧
      ∀ arr2, arr ≤ arr2 → ∀ net2,
        (callBungieAPI (callBungieAPI st key false arr (some body) ttl).state
          key false arr2 net2 ttl).networkCalled = true := by
  have hmiss : truthy ((cacheGet st.cache key arr).getD .vundefined) = false := by
    by_contra hc
    have hc2 : truthy ((cacheGet st.cache key arr).getD .vundefined) = true := by
      simpa using hc
    unfold callBungieAPI at hnet
    rw [if_pos (by simp [hc2])] at hnet
    exact absurd hnet (by simp)
  have hfail : responseFails false body = true := by
    simp [responseFails, herr, hne1]
  have e1 : callBungieAPI st key false arr (some body) ttl =
      { result := .error (),
        state := ⟨st.cache, paceTime st.lastRequestTime arr⟩,
        networkCalled := true,
        netTime := some (paceTime st.lastRequestTime arr) } := by
    unfold callBungieAPI
    rw [if_neg (by simp [hmiss])]
    simp only [missOutcome, if_pos hfail]
  rw [e1]
  refine ⟨rfl, rfl, ?_⟩
  intro arr2 harr net2
  have hmiss2 : truthy ((cacheGet st.cache key arr2).getD .vundefined) = false := by
    by_contra hc
    obtain ⟨b, hb, htb⟩ := truthy_getD_some _ (by simpa using hc)
    have := cacheGet_mono st.cache key arr arr2 harr b hb
    rw [this] at hmiss
    simp [htb] at hmiss
  exact (callBungieAPI_miss ⟨st.cache, paceTime st.lastRequestTime arr⟩
    key false arr2 net2 ttl hmiss2).1

/-- Witness for C4 at concrete inputs: error body with `ErrorCode = 99`. -/
theorem gateway_upstream_error_not_cached_witness :
    (callBungieAPI ⟨[], 7⟩ "/e:{}" false 5000
        (some (.vobj [("ErrorCode", .vnum 99)])) 3600).result = .error () ∧
      (callBungieAPI ⟨[], 7⟩ "/e:{}" false 5000
        (some (.vobj [("ErrorCode", .vnum 99)])) 3600).state.cache = [] ∧
      ∀ arr2, 5000 ≤ arr2 → ∀ net2,
        (callBungieAPI (callBungieAPI ⟨[], 7⟩ "/e:{}" false 5000
          (some (.vobj [("ErrorCode", .vnum 99)])) 3600).state
          "/e:{}" false arr2 net2 3600).networkCalled = true :=
  gateway_upstream_error_not_cached ⟨[], 7⟩ "/e:{}" 5000
    (.vobj [("ErrorCode", .vnum 99)]) 3600 rfl rfl rfl

/-- C5.  Whenever two consecutive gateway calls (any endpoints: the pacing
clock is the shared module-level `lastRequestTime`) both issue network
requests, the two network-call times are at least
`MIN_REQUEST_INTERVAL = 100` ms apart. -/
theorem gateway_rate_limit_spacing (st0 : GwState) (k1 k2 : String)
    (fu1 fu2 : Bool) (arr1 arr2 : Nat) (net1 net2 : Option JValue)
    (ttl1 ttl2 : Nat) (t1 t2 : Nat)
    (h1 : (callBungieAPI st0 k1 fu1 arr1 net1 ttl1).netTime = some t1)
    (h2 : (callBungieAPI (callBungieAPI st0 k1 fu1 arr1 net1 ttl1).state
        k2 fu2 arr2 net2 ttl2).netTime = some t2) :
    t1 + MIN_REQUEST_INTERVAL ≤ t2 := by
  obtain ⟨hlast1, _⟩ := netTime_lastRequestTime st0 k1 fu1 arr1 net1 ttl1 t1 h1
  obtain ⟨_, ht2⟩ := netTime_lastRequestTime _ k2 fu2 arr2 net2 ttl2 t2 h2
  rw [ht2, hlast1]
  exact paceTime_ge t1 arr2

/-- Witness for C5: two concrete back-to-back cache misses 30ms apart are
paced 100ms apart. -/
theorem gateway_rate_limit_spacing_witness :
    (1000 : Nat) + MIN_REQUEST_INTERVAL ≤ 1100 :=
  gateway_rate_limit_spacing ⟨[], 0⟩ "/a:{}" "/b:{}" true true 1000 1030
    (some (.vstr "x")) (some (.vstr "y")) 3600 3600 1000 1100 rfl rfl

/-- C10.  A cache entry that is unexpired but holds a falsy body (empty
string, `0`, `false`, or `null`) is treated as a miss by the truthiness-based
hit test: the call issues a network request, with rate-limit pacing applied. -/
theorem gateway_falsy_body_is_miss (st : GwState) (key : String) (isFu : Bool)
    (arr : Nat) (net : Option JValue) (ttl : Nat) (body : JValue)
    (hhit : cacheGet st.cache key arr = some body)
    (hfalsy : truthy body = false) :
    (callBungieAPI st key isFu arr net ttl).networkCalled = true ∧
      (callBungieAPI st key isFu arr net ttl).netTime
        = some (paceTime st.lastRequestTime arr) := by
  have hmiss : truthy ((cacheGet st.cache key arr).getD .vundefined) = false := by
    rw [hhit]
    exact hfalsy
  exact ⟨(callBungieAPI_miss st key isFu arr net ttl hmiss).1,
    (callBungieAPI_miss st key isFu arr net ttl hmiss).2.1⟩

/-- Witness for C10: an unexpired entry holding `0` triggers a paced refetch. -/
theorem gateway_falsy_body_is_miss_witness :
    (callBungieAPI ⟨[("/k:{}", .vnum 0, 9000)], 4950⟩ "/k:{}" false 5000
        (some (.vobj [])) 3600).networkCalled = true ∧
      (callBungieAPI ⟨[("/k:{}", .vnum 0, 9000)], 4950⟩ "/k:{}" false 5000
        (some (.vobj [])) 3600).netTime = some (paceTime 4950 5000) :=
  gateway_falsy_body_is_miss ⟨[("/k:{}", .vnum 0, 9000)], 4950⟩ "/k:{}" false
    5000 (some (.vobj [])) 3600 (.vnum 0) rfl rfl

/-! ## Filter Engine: `filterInventoryItems` (src/server.js lines 1167-1285)

The raw definition collection is the ordered association list of
`Object.entries` (hash key, raw item).  Each of the five predicates is
translated from its filter callback; the two free-text predicates call
`.toLowerCase()` on raw field values and therefore throw a `TypeError` on a
truthy non-string field, modelled as `Option Bool` with `none` for a throw. -/

/-- One raw entry of the definitions blob. -/
abbrev RawEntry := String × JValue

/-- Caller-supplied filter parameters (HTTP query values, hence strings when
present). -/
structure FilterSpec where
  itemCategoryHash : Option String := none
  classType : Option String := none
  rarity : Option String := none
  searchTerm : Option String := none
  itemType : Option String := none

/-- Category predicate (lines 1181-1185): the raw item's
`itemCategoryHashes` must be a (truthy) array containing `parseInt(hash)`;
`Array.includes` uses SameValueZero, under which `NaN` matches `NaN`. -/
def catPred (categoryHash : String) (item : JValue) : Bool :=
  let hashes := item.get "itemCategoryHashes"
  truthy hashes && isArray hashes &&
    (match hashes, parseIntJS categoryHash with
     | .varr es, some n => es.any fun e => strictNumEq e n
     | .varr es, none => es.any fun e => match e with | .vnan => true | _ => false
     | _, _ => false)

/-- Class-type predicate (lines 1197-1204): the sentinel `3` matches class
`3` or an absent field; a concrete class matches itself or the sentinel. -/
def classPred (classType : Int) (item : JValue) : Bool :=
  if classType == 3 then
    strictNumEq (item.get "classType") 3 || isUndefined (item.get "classType")
  else
    strictNumEq (item.get "classType") classType ||
      strictNumEq (item.get "classType") 3

/-- Rarity predicate (lines 1217-1219): `item.inventory` truthy and
`inventory.tierType === rarity`. -/
def rarityPred (rarity : Int) (item : JValue) : Bool :=
  truthy (item.get "inventory") &&
    strictNumEq ((item.get "inventory").get "tierType") rarity

/-- Free-text search predicate (lines 1231-1239); `none` models the
`TypeError` thrown when `.toLowerCase()` is reached on a truthy non-string
field. -/
def searchPred (term : List Char) (item : JValue) : Option Bool :=
  let dp := item.get "displayProperties"
  let name := dp.get "name"
  let firstDisjunct : Option Bool :=
    if truthy dp && truthy name then
      match name with
      | .vstr s => some (charsHasInfix (lowerChars s.data) term)
      | _ => none
    else some false
  match firstDisjunct with
  | none => none
  | some true => some true
  | some false =>
    let itdn := item.get "itemTypeDisplayName"
    if truthy itdn then
      match itdn with
      | .vstr s => some (charsHasInfix (lowerChars s.data) term)
      | _ => none
    else some false

/-- Item-type predicate (lines 1249-1252); `none` models the `TypeError`
on a truthy non-string `itemTypeDisplayName`. -/
def typePred (itemType : String) (item : JValue) : Option Bool :=
  let itdn := item.get "itemTypeDisplayName"
  if truthy itdn then
    match itdn with
    | .vstr s => some (charsHasInfix (lowerChars s.data) (lowerChars itemType.data))
    | _ => none
  else some false

/-- The category filter applies when the query value is truthy (line 1175). -/
def catFilter : Option String → Option (JValue → Bool)
  | some s => if s ≠ "" then some (catPred s) else none
  | none => none

/-- The class filter applies when the query value is present and
`parseInt` yields a value in `0..3` (lines 1190-1192). -/
def classFilter : Option String → Option (JValue → Bool)
  | some s =>
      match parseIntJS s with
      | some ct => if 0 ≤ ct ∧ ct ≤ 3 then some (classPred ct) else none
      | none => none
  | none => none

/-- The rarity filter applies when the query value is present and
`parseInt` yields a non-negative value (lines 1210-1212). -/
def rarityFilter : Option String → Option (JValue → Bool)
  | some s =>
      match parseIntJS s with
      | some r => if 0 ≤ r then some (rarityPred r) else none
      | none => none
  | none => none

/-- The search filter applies when the query value is truthy (line 1225);
the term is lowercased once, outside the per-item callback. -/
def searchFilter : Option String → Option (JValue → Option Bool)
  | some s => if s ≠ "" then some (searchPred (lowerChars s.data)) else none
  | none => none

/-- The item-type filter applies when the query value is truthy (line 1244). -/
def typeFilter : Option String → Option (JValue → Option Bool)
  | some s => if s ≠ "" then some (typePred s) else none
  | none => none

/-- Apply an (optionally active) total predicate to the working set. -/
def applyTotal (p : Option (JValue → Bool)) (items : List RawEntry) :
    List RawEntry :=
  match p with
  | some q => items.filter fun kv => q kv.2
  | none => items

/-- JS `Array.filter` with a throwing callback: `none` as soon as the callback
throws on any entry. -/
def filterExc (q : JValue → Option Bool) : List RawEntry → Option (List RawEntry)
  | [] => some []
  | kv :: rest =>
      match q kv.2, filterExc q rest with
      | none, _ => none
      | _, none => none
      | some b, some r => some (if b then kv :: r else r)

/-- Apply an (optionally active) throwing predicate to the working set. -/
def applyPartial (p : Option (JValue → Option Bool)) (items : List RawEntry) :
    Option (List RawEntry) :=
  match p with
  | some q => filterExc q items
  | none => some items

/-- The five sequential narrowing steps of `filterInventoryItems`, in source
order: category → class → rarity → search → item-type. -/
def applyFilters (items : List RawEntry) (f : FilterSpec) :
    Option (List RawEntry) :=
  let s1 := applyTotal (catFilter f.itemCategoryHash) items
  let s2 := applyTotal (classFilter f.classType) s1
  let s3 := applyTotal (rarityFilter f.rarity) s2
  (applyPartial (searchFilter f.searchTerm) s3).bind
    (applyPartial (typeFilter f.itemType))

/-- The warning string of line 1260. -/
def ceilingWarning (filteredCount maxItems : Nat) : String :=
  "Filtered result set (" ++ toString filteredCount ++
    " items) exceeds maximum limit (" ++ toString maxItems ++
    "). Please apply more specific filters."

/-- The record returned by `filterInventoryItems` (lines 1278-1284). -/
structure FilterResult where
  filteredItems : List RawEntry
  originalCount : Nat
  filteredCount : Nat
  warning : Option String
  appliedFilters : List String

/-- The `appliedFilters` tokens, pushed only for predicates actually applied. -/
def appliedFiltersList (f : FilterSpec) : List String :=
  (match f.itemCategoryHash, catFilter f.itemCategoryHash with
   | some s, some _ => ["itemCategoryHash=" ++ s] | _, _ => []) ++
  (match f.classType, classFilter f.classType with
   | some s, some _ => ["classType=" ++ toString ((parseIntJS s).getD 0)] | _, _ => []) ++
  (match f.rarity, rarityFilter f.rarity with
   | some s, some _ => ["rarity=" ++ toString ((parseIntJS s).getD 0)] | _, _ => []) ++
  (match f.searchTerm, searchFilter f.searchTerm with
   | some s, some _ => ["searchTerm=" ++ String.mk (lowerChars s.data)] | _, _ => []) ++
  (match f.itemType, typeFilter f.itemType with
   | some s, some _ => ["itemType=" ++ s] | _, _ => [])

/-- The function `filterInventoryItems(rawItems, filters)` with ceiling `maxItems`
(`parseInt(process.env.MAX_ITEMS) || 5000`); `none` when a filter callback
threw (the route then responds 500).  When the post-predicate set exceeds the
ceiling, the first `maxItems` entries in iteration order are kept (the keys
of an object of unique keys, sliced, then looked up). -/
def filterInventoryItems (maxItems : Nat) (items : List RawEntry)
    (f : FilterSpec) : Option FilterResult :=
  (applyFilters items f).map fun filtered =>
    let filteredCount := filtered.length
    let isTooBig := filteredCount > maxItems
    let warning := if isTooBig then some (ceilingWarning filteredCount maxItems) else none
    let final := if isTooBig then filtered.take maxItems else filtered
    { filteredItems := final,
      originalCount := items.length,
      filteredCount := final.length,
      warning := warning,
      appliedFilters := appliedFiltersList f }

/-! ## Filter Engine lemmas and claims C6, C7, C8 -/

theorem mem_applyTotal (p : Option (JValue → Bool)) (l : List RawEntry)
    (x : RawEntry) :
    x ∈ applyTotal p l ↔ x ∈ l ∧ ∀ q, p = some q → q x.2 = true := by
  cases p <;> simp [applyTotal, List.mem_filter]

theorem filterExc_mem (q : JValue → Option Bool) (l r : List RawEntry)
    (h : filterExc q l = some r) (x : RawEntry) :
    x ∈ r ↔ x ∈ l ∧ q x.2 = some true := by
  induction l generalizing r with
  | nil =>
    simp only [filterExc, Option.some.injEq] at h
    subst h
    simp
  | cons kv rest ih =>
    unfold filterExc at h
    cases hq : q kv.2 with
    | none => rw [hq] at h; exact absurd h (by simp)
    | some b =>
      rw [hq] at h
      cases hr : filterExc q rest with
      | none => rw [hr] at h; exact absurd h (by simp)
      | some rr =>
        rw [hr] at h
        simp only [Option.some.injEq] at h
        have hm := ih rr hr
        rw [← h]
        cases b with
        | true =>
          rw [if_pos rfl]
          simp only [List.mem_cons, hm]
          constructor
          · rintro (h1 | ⟨h1, h2⟩)
            · exact ⟨Or.inl h1, by rw [h1]; exact hq⟩
            · exact ⟨Or.inr h1, h2⟩
          · rintro ⟨h1 | h1, h2⟩
            · exact Or.inl h1
            · exact Or.inr ⟨h1, h2⟩
        | false =>
          rw [if_neg (by simp)]
          rw [hm]
          constructor
          · rintro ⟨h1, h2⟩
            exact ⟨List.mem_cons_of_mem kv h1, h2⟩
          · rintro ⟨h1, h2⟩
            rcases List.mem_cons.mp h1 with h1 | h1
            · rw [h1, hq] at h2
              exact absurd h2 (by simp)
            · exact ⟨h1, h2⟩

theorem applyPartial_mem (p : Option (JValue → Option Bool)) (l r : List RawEntry)
    (h : applyPartial p l = some r) (x : RawEntry) :
    x ∈ r ↔ x ∈ l ∧ ∀ q, p = some q → q x.2 = some true := by
  cases p with
  | none =>
    simp only [applyPartial, Option.some.injEq] at h
    subst h
    simp
  | some q =>
    rw [filterExc_mem q l r (by simpa [applyPartial] using h) x]
    simp

/-- The condition an item must meet for every active predicate of a spec. -/
def passesSpec (f : FilterSpec) (v : JValue) : Prop :=
  (∀ q, catFilter f.itemCategoryHash = some q → q v = true) ∧
    (∀ q, classFilter f.classType = some q → q v = true) ∧
    (∀ q, rarityFilter f.rarity = some q → q v = true) ∧
    (∀ q, searchFilter f.searchTerm = some q → q v = some true) ∧
    (∀ q, typeFilter f.itemType = some q → q v = some true)

/-- Characterization of the sequential narrowing: an entry survives iff it
was in the input and meets every active predicate; absent/invalid predicates
contribute nothing. -/
theorem applyFilters_mem (items : List RawEntry) (f : FilterSpec)
    (r : List RawEntry) (h : applyFilters items f = some r) (x : RawEntry) :
    x ∈ r ↔ x ∈ items ∧ passesSpec f x.2 := by
  unfold applyFilters at h
  obtain ⟨s4, hs4, hs5⟩ := Option.bind_eq_some.mp h
  rw [applyPartial_mem _ _ _ hs5 x, applyPartial_mem _ _ _ hs4 x,
    mem_applyTotal, mem_applyTotal, mem_applyTotal]
  unfold passesSpec
  tauto

/-- Pointwise union of two filter specs (first-supplied slot wins; under
disjointness each slot comes from the spec that supplies it). -/
def mergeSpec (f1 f2 : FilterSpec) : FilterSpec :=
  { itemCategoryHash := f1.itemCategoryHash.orElse fun _ => f2.itemCategoryHash,
    classType := f1.classType.orElse fun _ => f2.classType,
    rarity := f1.rarity.orElse fun _ => f2.rarity,
    searchTerm := f1.searchTerm.orElse fun _ => f2.searchTerm,
    itemType := f1.itemType.orElse fun _ => f2.itemType }

/-- No predicate slot is supplied by both specs. -/
def disjointSpecs (f1 f2 : FilterSpec) : Prop :=
  (f1.itemCategoryHash = none ∨ f2.itemCategoryHash = none) ∧
    (f1.classType = none ∨ f2.classType = none) ∧
    (f1.rarity = none ∨ f2.rarity = none) ∧
    (f1.searchTerm = none ∨ f2.searchTerm = none) ∧
    (f1.itemType = none ∨ f2.itemType = none)

theorem slot_merge_cond {β : Type} (g : Option String → Option β)
    (hg : g none = none) (o1 o2 : Option String)
    (hd : o1 = none ∨ o2 = none) (C : β → Prop) :
    (∀ q, g (o1.orElse fun _ => o2) = some q → C q) ↔
      ((∀ q, g o1 = some q → C q) ∧ (∀ q, g o2 = some q → C q)) := by
  rcases hd with h | h <;> subst h <;> simp [hg]

/-- C6.  Filter Engine conjunction: for any raw collection and any two
disjointly-supplied predicate sets whose sequential application succeeds, the
filtered result contains exactly the entries in the intersection of the two
independent applications to the original collection. -/
theorem filter_conjunction (items : List RawEntry) (f1 f2 : FilterSpec)
    (hd : disjointSpecs f1 f2) (r r1 r2 : List RawEntry)
    (h : applyFilters items (mergeSpec f1 f2) = some r)
    (h1 : applyFilters items f1 = some r1)
    (h2 : applyFilters items f2 = some r2) (x : RawEntry) :
    x ∈ r ↔ (x ∈ r1 ∧ x ∈ r2) := by
  rw [applyFilters_mem items _ r h x, applyFilters_mem items f1 r1 h1 x,
    applyFilters_mem items f2 r2 h2 x]
  obtain ⟨d1, d2, d3, d4, d5⟩ := hd
  have hsplit : passesSpec (mergeSpec f1 f2) x.2 ↔
      passesSpec f1 x.2 ∧ passesSpec f2 x.2 := by
    unfold passesSpec mergeSpec
    rw [slot_merge_cond catFilter rfl _ _ d1,
      slot_merge_cond classFilter rfl _ _ d2,
      slot_merge_cond rarityFilter rfl _ _ d3,
      slot_merge_cond searchFilter rfl _ _ d4,
      slot_merge_cond typeFilter rfl _ _ d5]
    tauto
  rw [hsplit]
  tauto

/-- Witness for C6 at a concrete collection and two concrete predicates
(class filter and rarity filter). -/
theorem filter_conjunction_witness :
    ("10", JValue.vobj [("classType", .vnum 1),
        ("inventory", .vobj [("tierType", .vnum 5)])]) ∈
      [("10", JValue.vobj [("classType", .vnum 1),
        ("inventory", .vobj [("tierType", .vnum 5)])])] ↔
      (("10", JValue.vobj [("classType", .vnum 1),
          ("inventory", .vobj [("tierType", .vnum 5)])]) ∈
        [("10", JValue.vobj [("classType", .vnum 1),
          ("inventory", .vobj [("tierType", .vnum 5)])])] ∧
        ("10", JValue.vobj [("classType", .vnum 1),
          ("inventory", .vobj [("tierType", .vnum 5)])]) ∈
        [("10", JValue.vobj [("classType", .vnum 1),
            ("inventory", .vobj [("tierType", .vnum 5)])]),
         ("11", JValue.vobj [("classType", .vnum 0),
            ("inventory", .vobj [("tierType", .vnum 5)])])]) :=
  filter_conjunction
    [("10", JValue.vobj [("classType", .vnum 1),
        ("inventory", .vobj [("tierType", .vnum 5)])]),
     ("11", JValue.vobj [("classType", .vnum 0),
        ("inventory", .vobj [("tierType", .vnum 5)])])]
    { classType := some "1" } { rarity := some "5" }
    ⟨Or.inl rfl, Or.inr rfl, Or.inl rfl, Or.inl rfl, Or.inl rfl⟩
    [("10", JValue.vobj [("classType", .vnum 1),
        ("inventory", .vobj [("tierType", .vnum 5)])])]
    [("10", JValue.vobj [("classType", .vnum 1),
        ("inventory", .vobj [("tierType", .vnum 5)])])]
    [("10", JValue.vobj [("classType", .vnum 1),
        ("inventory", .vobj [("tierType", .vnum 5)])]),
     ("11", JValue.vobj [("classType", .vnum 0),
        ("inventory", .vobj [("tierType", .vnum 5)])])]
    rfl rfl rfl
    ("10", JValue.vobj [("classType", .vnum 1),
        ("inventory", .vobj [("tierType", .vnum 5)])])

theorem ceilingWarning_ne_empty (n m : Nat) : ceilingWarning n m ≠ "" := by
  intro h
  have hd := congrArg String.data h
  simp only [ceilingWarning, String.data_append] at hd
  simp at hd

/-- C7.  Filter Engine ceiling: when the post-predicate set exceeds the
ceiling, the returned set is exactly the first `maxItems` entries in
iteration order (truncation, not sampling), its length is exactly the
ceiling, and the warning is a non-empty string naming the pre-truncation
count and the ceiling; otherwise the warning is absent. -/
theorem filter_ceiling (maxItems : Nat) (items : List RawEntry)
    (f : FilterSpec) (flt : List RawEntry)
    (h : applyFilters items f = some flt) :
    (flt.length > maxItems →
      filterInventoryItems maxItems items f = some
        { filteredItems := flt.take maxItems,
          originalCount := items.length,
          filteredCount := maxItems,
          warning := some (ceilingWarning flt.length maxItems),
          appliedFilters := appliedFiltersList f } ∧
      (flt.take maxItems).length = maxItems ∧
      ceilingWarning flt.length maxItems ≠ "") ∧
    (flt.length ≤ maxItems →
      filterInventoryItems maxItems items f = some
        { filteredItems := flt,
          originalCount := items.length,
          filteredCount := flt.length,
          warning := none,
          appliedFilters := appliedFiltersList f }) := by
  have hlen : ∀ hgt : flt.length > maxItems, (flt.take maxItems).length = maxItems := by
    intro hgt
    rw [List.length_take]
    exact Nat.min_eq_left (Nat.le_of_lt hgt)
  constructor
  · intro hgt
    refine ⟨?_, hlen hgt, ceilingWarning_ne_empty _ _⟩
    unfold filterInventoryItems
    rw [h]
    simp [hgt, hlen hgt]
  · intro hle
    have hnot : ¬(flt.length > maxItems) := Nat.not_lt.mpr hle
    unfold filterInventoryItems
    rw [h]
    simp [hnot]

/-- Concrete three-entry collection used to witness the ceiling claim. -/
def ceilingWitnessItems : List RawEntry :=
  [("1", .vnum 1), ("2", .vnum 2), ("3", .vnum 3)]

/-- Witness for C7: with ceiling 2 and three surviving entries, the result is
the first two entries and a non-empty warning naming both counts. -/
theorem filter_ceiling_witness :
    filterInventoryItems 2 ceilingWitnessItems {} = some
      { filteredItems := ceilingWitnessItems.take 2,
        originalCount := ceilingWitnessItems.length,
        filteredCount := 2,
        warning := some (ceilingWarning ceilingWitnessItems.length 2),
        appliedFilters := appliedFiltersList {} } ∧
      (ceilingWitnessItems.take 2).length = 2 ∧
      ceilingWarning ceilingWitnessItems.length 2 ≠ "" :=
  (filter_ceiling 2 ceilingWitnessItems {} ceilingWitnessItems rfl).1 (by decide)

theorem strictNumEq_eq_true (v : JValue) (n : Int) :
    strictNumEq v n = true ↔ v = .vnum n := by
  cases v <;> simp [strictNumEq]

theorem isUndefined_eq_true (v : JValue) : isUndefined v = true ↔ v = .vundefined := by
  cases v <;> simp [isUndefined]

/-- C8.  Class-type wildcard semantics: a filter for the sentinel `3` matches
records whose `classType` strictly equals `3` or is absent (`undefined`); a
filter for a concrete class `0`, `1` or `2` matches records whose `classType`
strictly equals that value or equals the sentinel `3`.  In particular a
record with no class field passes the sentinel filter, and a record with the
sentinel class passes every concrete-class filter. -/
theorem classtype_wildcard (item : JValue) :
    (classPred 3 item = true ↔
        (item.get "classType" = .vnum 3 ∨ item.get "classType" = .vundefined)) ∧
      (∀ c : Int, c = 0 ∨ c = 1 ∨ c = 2 →
        (classPred c item = true ↔
          (item.get "classType" = .vnum c ∨ item.get "classType" = .vnum 3))) ∧
      (∀ fields : List (String × JValue), fields.lookup "classType" = none →
        classPred 3 (.vobj fields) = true) ∧
      (item.get "classType" = .vnum 3 →
        ∀ c : Int, c = 0 ∨ c = 1 ∨ c = 2 → classPred c item = true) := by
  refine ⟨?_, ?_, ?_, ?_⟩
  · simp [classPred, strictNumEq_eq_true, isUndefined_eq_true]
  · intro c hc
    rcases hc with rfl | rfl | rfl <;>
      simp [classPred, strictNumEq_eq_true]
  · intro fields hf
    simp [classPred, JValue.get, hf, isUndefined]
  · intro h3 c hc
    rcases hc with rfl | rfl | rfl <;>
      simp [classPred, strictNumEq_eq_true, h3]

/-- Witness for C8: a record with no class field passes the sentinel filter,
and a record with the sentinel class passes the concrete Titan filter. -/
theorem classtype_wildcard_witness :
    classPred 3 (.vobj [("name", .vstr "x")]) = true ∧
      classPred 0 (.vobj [("classType", .vnum 3)]) = true :=
  ⟨(classtype_wildcard (.vobj [("name", .vstr "x")])).2.2.1
      [("name", .vstr "x")] rfl,
    (classtype_wildcard (.vobj [("classType", .vnum 3)])).2.2.2 rfl 0
      (Or.inl rfl)⟩

/-! ## Sample vendor inventory: `generateVendorInventoryData`
(src/server.js lines 925-1089)

The price/light-level jitter drawn after availability filtering does not
affect which items appear; availability is a pure function of the date's day
of week (`new Date(date).getDay()`: 0 = Sunday … 6 = Saturday) and the item's
index in the fixed catalogue (`inventoryItems.indexOf(item)`: the catalogue
entries are distinct object references, so `indexOf` is the position). -/

structure SampleItem where
  itemName : String
  itemType : String
  vendor : String
  basePrice : Nat
  baseLightLevel : Nat
  rarity : String
  referenceId : String
deriving DecidableEq

/-- The fixed `inventoryItems` catalogue (lines 940-1040) in source order. -/
def vendorInventoryItems : List SampleItem :=
  [ { itemName := "Gjallarhorn", itemType := "Rocket Launcher", vendor := "Xûr",
      basePrice := 29, baseLightLevel := 1350, rarity := "Exotic",
      referenceId := "1274330687" },
    { itemName := "Thorn", itemType := "Hand Cannon",
      vendor := "Monument to Lost Lights", basePrice := 25,
      baseLightLevel := 1350, rarity := "Exotic", referenceId := "3973202132" },
    { itemName := "Ace of Spades", itemType := "Hand Cannon",
      vendor := "Monument to Lost Lights", basePrice := 25,
      baseLightLevel := 1350, rarity := "Exotic", referenceId := "347366834" },
    { itemName := "Last Word", itemType := "Hand Cannon",
      vendor := "Monument to Lost Lights", basePrice := 25,
      baseLightLevel := 1350, rarity := "Exotic", referenceId := "1364093401" },
    { itemName := "Hawkmoon", itemType := "Hand Cannon", vendor := "Xûr",
      basePrice := 23, baseLightLevel := 1350, rarity := "Exotic",
      referenceId := "3856705927" },
    { itemName := "Fatebringer", itemType := "Hand Cannon",
      vendor := "Banshee-44", basePrice := 15, baseLightLevel := 1350,
      rarity := "Legendary", referenceId := "2171478765" },
    { itemName := "Eyasluna", itemType := "Hand Cannon",
      vendor := "Banshee-44", basePrice := 15, baseLightLevel := 1350,
      rarity := "Legendary", referenceId := "1321792747" },
    { itemName := "Falling Guillotine", itemType := "Sword",
      vendor := "Banshee-44", basePrice := 17, baseLightLevel := 1350,
      rarity := "Legendary", referenceId := "614426548" },
    { itemName := "Ikelos SMG", itemType := "Submachine Gun",
      vendor := "Banshee-44", basePrice := 12, baseLightLevel := 1350,
      rarity := "Legendary", referenceId := "2222560548" },
    { itemName := "Gnawing Hunger", itemType := "Auto Rifle",
      vendor := "Banshee-44", basePrice := 13, baseLightLevel := 1350,
      rarity := "Legendary", referenceId := "821154603" },
    { itemName := "Dead Man\x27s Tale", itemType := "Scout Rifle",
      vendor := "Xûr", basePrice := 29, baseLightLevel := 1350,
      rarity := "Exotic", referenceId := "3654674561" } ]

/-- Flag `isXurPresent` (line 1048): `dayOfWeek >= 5 || dayOfWeek === 0`. -/
def isXurPresent (dayOfWeek : Nat) : Bool :=
  dayOfWeek ≥ 5 || dayOfWeek == 0

/-- The availability callback of `inventoryItems.filter` (lines 1051-1068),
with `idx` the item's catalogue index. -/
def vendorItemAvailable (dayOfWeek idx : Nat) (item : SampleItem) : Bool :=
  if item.vendor == "Xûr" && !isXurPresent dayOfWeek then false
  else if item.vendor == "Monument to Lost Lights" then true
  else if item.vendor == "Banshee-44" then decide ((dayOfWeek + idx) % 5 < 3)
  else true

/-- The items retained for a given day of week (`availableItems`,
line 1051); the subsequent `.map` adds jitter fields but neither adds nor
removes items. -/
def availableItems (dayOfWeek : Nat) : List SampleItem :=
  (vendorInventoryItems.enum.filter fun p =>
    vendorItemAvailable dayOfWeek p.1 p.2).map Prod.snd

/-- C9.  Day-of-week gating of the sample vendor inventory: Xûr items appear
iff the day is Friday (5), Saturday (6) or Sunday (0); Monument to Lost
Lights items always appear; a Banshee-44 item at catalogue index `i` appears
iff `(dayOfWeek + i) % 5 < 3`. -/
theorem vendor_day_gating (d : Nat) (hd : d ≤ 6) :
    (∀ it ∈ vendorInventoryItems, it.vendor = "Xûr" →
        (it ∈ availableItems d ↔ (d = 5 ∨ d = 6 ∨ d = 0))) ∧
      (∀ it ∈ vendorInventoryItems, it.vendor = "Monument to Lost Lights" →
        it ∈ availableItems d) ∧
      (∀ i : Fin vendorInventoryItems.length,
        (vendorInventoryItems.get i).vendor = "Banshee-44" →
        (vendorInventoryItems.get i ∈ availableItems d ↔ (d + i.val) % 5 < 3)) := by
  interval_cases d <;> decide

/-- Witness for C9: Gjallarhorn (Xûr) appears on Saturday (6) and not on
Tuesday (2). -/
theorem vendor_day_gating_witness :
    vendorInventoryItems.get ⟨0, by decide⟩ ∈ availableItems 6 ∧
      vendorInventoryItems.get ⟨0, by decide⟩ ∉ availableItems 2 := by
  constructor
  · exact ((vendor_day_gating 6 (by decide)).1 _ (by decide) rfl).mpr
      (Or.inr (Or.inl rfl))
  · intro hmem
    rcases ((vendor_day_gating 2 (by decide)).1 _ (by decide) rfl).mp hmem with
      h | h | h <;> exact absurd h (by decide)

end VanguardViz
